import Mathlib

/-!
Verification of the service-transaction checker
(`src/miner/src/service_transaction_checker.rs` of parity-ethereum).

The checker decides whether a zero-gas-price ("service") transaction is
authorized, by consulting two on-chain policy contracts through an injected
client capability: a certifier contract (`certified(address)`) and a
destination whitelist contract (`activated()`, `whitelisted(address)`).

The embedding below translates the Rust functions directly.  Each checker
function additionally returns the list of chain queries it issued through the
client (registry resolutions and contract calls), so that the "no call is
made on this path" properties can be stated and proved.
-/

namespace Parity

/-- A 20-byte account address, modelled as a natural number. -/
abbrev Address := Nat

/-- The zero-address sentinel `Address::default()`. -/
def Address.default : Address := 0

/-- `types::ids::BlockId`: the checker only ever queries latest state. -/
inductive BlockId : Type
  | Latest
deriving DecidableEq, Repr

/-- `types::transaction::Action`: create a contract or call an address. -/
inductive Action : Type
  | Create : Action
  | Call : Address → Action
deriving DecidableEq, Repr

/-- `types::transaction::SignedTransaction`, restricted to the fields the
checker can observe plus the remaining payload fields (used to state that the
result does not depend on them).  `sender` models the cached result of
`tx.sender()`. -/
structure SignedTransaction : Type where
  sender : Address
  gas_price : Nat
  action : Action
  nonce : Nat
  value : Nat
  gas : Nat
  data : List Nat
deriving DecidableEq, Repr

/-- Modelled from the spec: the ABI-encoded call data produced by the
`use_contract!`-generated encoders for the three contract functions of the
external interface (`certified(address)`, `activated()`,
`whitelisted(address)`); the generated code is not part of the source tree.
Distinct constructors model the distinct encodings. -/
inductive CallData : Type
  | certified (sender : Address)
  | activated
  | whitelisted (to_addr : Address)
deriving DecidableEq, Repr

/-- Modelled from the spec: the `use_contract!`-generated ABI decoder for a
`bool` return value, which accepts a single 32-byte word holding 0 or 1 and
rejects anything else with a decode error. -/
def decode_bool (value : List Nat) : Except String Bool :=
  if value = List.replicate 31 0 ++ [1] then Except.ok true
  else if value = List.replicate 32 0 then Except.ok false
  else Except.error "abi decode error"

/-- The injected chain-query capability (`CallContract + RegistryInfo`):
name-to-address registry resolution and read-only contract invocation. -/
structure Client : Type where
  registry_address : String → BlockId → Option Address
  call_contract : BlockId → Address → CallData → Except String (List Nat)

/-- One chain query issued through the client: a registry resolution or a
contract call. -/
inductive ChainOp : Type
  | registry (name : String)
  | call (contract : Address) (data : CallData)
deriving DecidableEq, Repr

/-- `SERVICE_TRANSACTION_CONTRACT_REGISTRY_NAME`. -/
def SERVICE_TRANSACTION_CONTRACT_REGISTRY_NAME : String :=
  "service_transaction_checker"

/-- `SERVICE_CERTIFIED_WHITESLIT_CONTRACT_REGISTRY_NAME`. -/
def SERVICE_CERTIFIED_WHITESLIT_CONTRACT_REGISTRY_NAME : String :=
  "service_destination_whitelist"

/-- `Result::unwrap_or`. -/
def unwrapOr {ε α : Type} (r : Except ε α) (d : α) : α :=
  match r with
  | Except.ok a => a
  | Except.error _ => d

namespace ServiceTransactionChecker

/-- `check_certified_address`: resolve the certifier contract via the
registry (absence is the error "contract is not configured"), call its
`certified(sender)` function, and decode the result to a boolean.  The second
component lists the chain queries issued. -/
def check_certified_address (client : Client) (sender : Address) :
    Except String Bool × List ChainOp :=
  match client.registry_address SERVICE_TRANSACTION_CONTRACT_REGISTRY_NAME BlockId.Latest with
  | none =>
    (Except.error "contract is not configured",
     [ChainOp.registry SERVICE_TRANSACTION_CONTRACT_REGISTRY_NAME])
  | some contract_address =>
    let data := CallData.certified sender
    let ops := [ChainOp.registry SERVICE_TRANSACTION_CONTRACT_REGISTRY_NAME,
                ChainOp.call contract_address data]
    match client.call_contract BlockId.Latest contract_address data with
    | Except.error e => (Except.error e, ops)
    | Except.ok value => (decode_bool value, ops)

/-- `check_whitelist_active`: call the whitelist contract function `activated()`
function and decode the result to a boolean. -/
def check_whitelist_active (client : Client) (whitelist_contract_address : Address) :
    Except String Bool × List ChainOp :=
  let ops := [ChainOp.call whitelist_contract_address CallData.activated]
  match client.call_contract BlockId.Latest whitelist_contract_address CallData.activated with
  | Except.error e => (Except.error e, ops)
  | Except.ok value => (decode_bool value, ops)

/-- `check_whitelist_address_presence`: call the whitelist contract function
`whitelisted(to_addr)` function and decode the result to a boolean. -/
def check_whitelist_address_presence (client : Client)
    (whitelist_contract_address : Address) (to_addr : Address) :
    Except String Bool × List ChainOp :=
  let data := CallData.whitelisted to_addr
  let ops := [ChainOp.call whitelist_contract_address data]
  match client.call_contract BlockId.Latest whitelist_contract_address data with
  | Except.error e => (Except.error e, ops)
  | Except.ok value => (decode_bool value, ops)

/-- `check_whitelist_address`: resolve the whitelist contract via the
registry (absence is the error "whitelist contract is not configured"); if
`activated()` errors propagate the error, if it returns `false` return
`Ok(false)`, otherwise return the result of `whitelisted(to_addr)`. -/
def check_whitelist_address (client : Client) (to_addr : Address) :
    Except String Bool × List ChainOp :=
  match client.registry_address SERVICE_CERTIFIED_WHITESLIT_CONTRACT_REGISTRY_NAME BlockId.Latest with
  | none =>
    (Except.error "whitelist contract is not configured",
     [ChainOp.registry SERVICE_CERTIFIED_WHITESLIT_CONTRACT_REGISTRY_NAME])
  | some contract_address =>
    let active := check_whitelist_active client contract_address
    let ops := ChainOp.registry SERVICE_CERTIFIED_WHITESLIT_CONTRACT_REGISTRY_NAME :: active.2
    match active.1 with
    | Except.error e => (Except.error e, ops)
    | Except.ok false => (Except.ok false, ops)
    | Except.ok true =>
      let presence := check_whitelist_address_presence client contract_address to_addr
      (presence.1, ops ++ presence.2)

/-- `check_address`: run the certifier check, propagating its error (`?`);
if the sender is not certified return `Ok(false)`; otherwise run the
whitelist check and convert any error to `true` (`unwrap_or(true)`). -/
def check_address (client : Client) (sender to_addr : Address) :
    Except String Bool × List ChainOp :=
  let cert := check_certified_address client sender
  match cert.1 with
  | Except.error e => (Except.error e, cert.2)
  | Except.ok certified =>
    if !certified then (Except.ok false, cert.2)
    else
      let wl := check_whitelist_address client to_addr
      let whitelist_allowed := unwrapOr wl.1 true
      (Except.ok whitelist_allowed, cert.2 ++ wl.2)

/-- `check`: a transaction with non-zero gas price short-circuits to
`Ok(false)` with no chain query; otherwise the effective destination is the
zero address for `Create` and the call target for `Call`, and the result is
`check_address(sender, destination)`. -/
def check (client : Client) (tx : SignedTransaction) :
    Except String Bool × List ChainOp :=
  let sender := tx.sender
  if tx.gas_price ≠ 0 then (Except.ok false, [])
  else
    let to_address := match tx.action with
      | Action.Create => Address.default
      | Action.Call address => address
    check_address client sender to_address

end ServiceTransactionChecker

/-- True of a chain query on the whitelist path: resolving the whitelist
contract name in the registry, or calling `activated()` or
`whitelisted(address)`. -/
def ChainOp.isWhitelistPath : ChainOp → Bool
  | ChainOp.registry name => name == SERVICE_CERTIFIED_WHITESLIT_CONTRACT_REGISTRY_NAME
  | ChainOp.call _ (CallData.certified _) => false
  | ChainOp.call _ CallData.activated => true
  | ChainOp.call _ (CallData.whitelisted _) => true

/-- True of a chain query that invokes the `whitelisted(address)` contract
function. -/
def ChainOp.isPresenceCall : ChainOp → Bool
  | ChainOp.call _ (CallData.whitelisted _) => true
  | _ => false

/-- The 32-byte ABI word encoding `true`. -/
def trueWord : List Nat := List.replicate 31 0 ++ [1]

/-- The 32-byte ABI word encoding `false`. -/
def falseWord : List Nat := List.replicate 32 0

/-- A deterministic client for concrete evaluations: the two registry entries
and a fixed result for each contract function. -/
def mkClient (certEntry wlEntry : Option Address)
    (certResult activeResult presenceResult : Except String (List Nat)) : Client where
  registry_address := fun name _ =>
    if name == SERVICE_TRANSACTION_CONTRACT_REGISTRY_NAME then certEntry
    else if name == SERVICE_CERTIFIED_WHITESLIT_CONTRACT_REGISTRY_NAME then wlEntry
    else none
  call_contract := fun _ _ data =>
    match data with
    | CallData.certified _ => certResult
    | CallData.activated => activeResult
    | CallData.whitelisted _ => presenceResult

namespace ServiceTransactionChecker

/-- Every chain query issued by the certifier check is on the certifier path:
none of them is a whitelist-path operation. -/
lemma check_certified_address_ops_not_whitelist (client : Client) (sender : Address) :
    ∀ op ∈ (check_certified_address client sender).2, op.isWhitelistPath = false := by
  intro op hop
  simp only [check_certified_address] at hop
  split at hop
  · simp only [List.mem_singleton] at hop
    subst hop
    decide
  · split at hop <;>
      simp only [List.mem_cons, List.mem_singleton, List.not_mem_nil, or_false] at hop <;>
      rcases hop with h | h <;> subst h
    all_goals first
      | decide
      | rfl

/-- Every chain query issued by the `activated()` check is a call with the
`activated` call data, hence never a `whitelisted(address)` call. -/
lemma check_whitelist_active_ops_not_presence (client : Client) (addr : Address) :
    ∀ op ∈ (check_whitelist_active client addr).2, op.isPresenceCall = false := by
  intro op hop
  simp only [check_whitelist_active] at hop
  split at hop <;>
    simp only [List.mem_singleton] at hop <;> subst hop <;>
    simp [ChainOp.isPresenceCall]

/-- C1: for every sender and destination, if the certifier check returns an
error, then check_address returns that same error, and no whitelist-path
operation (whitelist registry resolution, `activated()`, or
`whitelisted()`) is ever invoked. -/
theorem C1_certifier_error_propagates (client : Client) (sender to_addr : Address)
    (e : String)
    (h : (check_certified_address client sender).1 = Except.error e) :
    (check_address client sender to_addr).1 = Except.error e ∧
    ∀ op ∈ (check_address client sender to_addr).2, op.isWhitelistPath = false := by
  simp only [check_address]
  rw [h]
  exact ⟨rfl, check_certified_address_ops_not_whitelist client sender⟩

/-- C1 witness: a client with no certifier registry entry makes the top-level
address check fail with the configuration error, issuing no whitelist-path
query. -/
theorem C1_certifier_error_propagates_witness :
    (check_address
      (mkClient none none (Except.ok trueWord) (Except.ok trueWord) (Except.ok trueWord))
      1 2).1 = Except.error "contract is not configured" ∧
    ∀ op ∈ (check_address
      (mkClient none none (Except.ok trueWord) (Except.ok trueWord) (Except.ok trueWord))
      1 2).2, op.isWhitelistPath = false :=
  C1_certifier_error_propagates
    (mkClient none none (Except.ok trueWord) (Except.ok trueWord) (Except.ok trueWord))
    1 2 "contract is not configured" rfl

/-- C2: for every sender and destination, if the certifier check returns
true and the whitelist check returns an error for any reason, then
check_address returns Ok(true): the error is swallowed and never reaches the
caller. -/
theorem C2_whitelist_error_swallowed (client : Client) (sender to_addr : Address)
    (e : String)
    (hc : (check_certified_address client sender).1 = Except.ok true)
    (hw : (check_whitelist_address client to_addr).1 = Except.error e) :
    (check_address client sender to_addr).1 = Except.ok true := by
  simp only [check_address]
  rw [hc, hw]
  rfl

/-- C2 witness: certifier answers true and the whitelist registry entry is
absent, so the whitelist check errors and the address check permits. -/
theorem C2_whitelist_error_swallowed_witness :
    (check_certified_address
      (mkClient (some 5) none (Except.ok trueWord) (Except.ok trueWord) (Except.ok trueWord))
      1).1 = Except.ok true ∧
    (check_whitelist_address
      (mkClient (some 5) none (Except.ok trueWord) (Except.ok trueWord) (Except.ok trueWord))
      2).1 = Except.error "whitelist contract is not configured" ∧
    (check_address
      (mkClient (some 5) none (Except.ok trueWord) (Except.ok trueWord) (Except.ok trueWord))
      1 2).1 = Except.ok true :=
  ⟨rfl, rfl,
    C2_whitelist_error_swallowed
      (mkClient (some 5) none (Except.ok trueWord) (Except.ok trueWord) (Except.ok trueWord))
      1 2 "whitelist contract is not configured" rfl rfl⟩

/-- C3 counterexample: a client where the certifier answers true, the
whitelist contract is configured at address 7, and `activated()` decodes to
false; check_address returns Ok(false), not Ok(true) as the claim states. -/
theorem C3_activated_false_counterexample :
    (check_certified_address
      (mkClient (some 5) (some 7) (Except.ok trueWord) (Except.ok falseWord) (Except.ok trueWord))
      1).1 = Except.ok true ∧
    (mkClient (some 5) (some 7) (Except.ok trueWord) (Except.ok falseWord)
      (Except.ok trueWord)).registry_address
        SERVICE_CERTIFIED_WHITESLIT_CONTRACT_REGISTRY_NAME BlockId.Latest = some 7 ∧
    (check_whitelist_active
      (mkClient (some 5) (some 7) (Except.ok trueWord) (Except.ok falseWord) (Except.ok trueWord))
      7).1 = Except.ok false ∧
    (check_address
      (mkClient (some 5) (some 7) (Except.ok trueWord) (Except.ok falseWord) (Except.ok trueWord))
      1 2).1 ≠ Except.ok true := by
  refine ⟨rfl, rfl, rfl, ?_⟩
  intro hcontra
  rw [show (check_address
    (mkClient (some 5) (some 7) (Except.ok trueWord) (Except.ok falseWord) (Except.ok trueWord))
    1 2).1 = Except.ok false from rfl] at hcontra
  exact Bool.noConfusion (Except.ok.inj hcontra)

/-- C3 amended: if the certifier check returns true, the whitelist registry
entry resolves, and `activated()` successfully returns false, then
check_address returns Ok(false): the successful false from the inactive
whitelist flows through unwrap_or unchanged and the sender is refused. -/
theorem C3_activated_false_gives_false (client : Client) (sender to_addr waddr : Address)
    (hc : (check_certified_address client sender).1 = Except.ok true)
    (hr : client.registry_address SERVICE_CERTIFIED_WHITESLIT_CONTRACT_REGISTRY_NAME
      BlockId.Latest = some waddr)
    (ha : (check_whitelist_active client waddr).1 = Except.ok false) :
    (check_address client sender to_addr).1 = Except.ok false := by
  have hw : (check_whitelist_address client to_addr).1 = Except.ok false := by
    simp only [check_whitelist_address]
    rw [hr]
    simp only [ha]
  simp only [check_address]
  rw [hc, hw]
  rfl

/-- C3 amended witness: the counterexample client evaluated through the
amended statement yields Ok(false). -/
theorem C3_activated_false_gives_false_witness :
    (check_address
      (mkClient (some 5) (some 7) (Except.ok trueWord) (Except.ok falseWord) (Except.ok trueWord))
      1 2).1 = Except.ok false :=
  C3_activated_false_gives_false
    (mkClient (some 5) (some 7) (Except.ok trueWord) (Except.ok falseWord) (Except.ok trueWord))
    1 2 7 rfl rfl rfl

/-- C4: a transaction with non-zero gas price yields Ok(false) and an empty
chain-query trace: no registry resolution or contract call is performed. -/
theorem C4_nonzero_gas_price_short_circuits (client : Client) (tx : SignedTransaction)
    (h : tx.gas_price ≠ 0) :
    check client tx = (Except.ok false, []) := by
  simp only [check]
  rw [if_pos h]

/-- C4 witness: a gas price of 5 short-circuits with no chain query, whatever
the client would answer. -/
theorem C4_nonzero_gas_price_short_circuits_witness :
    check
      (mkClient (some 5) (some 7) (Except.ok trueWord) (Except.ok trueWord) (Except.ok trueWord))
      (SignedTransaction.mk 1 5 (Action.Call 2) 0 0 21000 []) = (Except.ok false, []) :=
  C4_nonzero_gas_price_short_circuits
    (mkClient (some 5) (some 7) (Except.ok trueWord) (Except.ok trueWord) (Except.ok trueWord))
    (SignedTransaction.mk 1 5 (Action.Call 2) 0 0 21000 []) (by decide)

/-- C5: if the certifier check successfully returns false, check_address
returns Ok(false) and no whitelist-path operation is invoked. -/
theorem C5_uncertified_sender_refused (client : Client) (sender to_addr : Address)
    (h : (check_certified_address client sender).1 = Except.ok false) :
    (check_address client sender to_addr).1 = Except.ok false ∧
    ∀ op ∈ (check_address client sender to_addr).2, op.isWhitelistPath = false := by
  simp only [check_address]
  rw [h]
  exact ⟨rfl, check_certified_address_ops_not_whitelist client sender⟩

/-- C5 witness: the certifier contract decodes to false, so the check refuses
without touching the whitelist path. -/
theorem C5_uncertified_sender_refused_witness :
    (check_address
      (mkClient (some 5) (some 7) (Except.ok falseWord) (Except.ok trueWord) (Except.ok trueWord))
      1 2).1 = Except.ok false ∧
    ∀ op ∈ (check_address
      (mkClient (some 5) (some 7) (Except.ok falseWord) (Except.ok trueWord) (Except.ok trueWord))
      1 2).2, op.isWhitelistPath = false :=
  C5_uncertified_sender_refused
    (mkClient (some 5) (some 7) (Except.ok falseWord) (Except.ok trueWord) (Except.ok trueWord))
    1 2 rfl

/-- C6: if the certifier check returns true, the whitelist contract is
resolved, `activated()` successfully returns true, and
`whitelisted(destination)` successfully returns b, then check_address
returns Ok(b). -/
theorem C6_active_whitelist_decides (client : Client) (sender to_addr waddr : Address)
    (b : Bool)
    (hc : (check_certified_address client sender).1 = Except.ok true)
    (hr : client.registry_address SERVICE_CERTIFIED_WHITESLIT_CONTRACT_REGISTRY_NAME
      BlockId.Latest = some waddr)
    (ha : (check_whitelist_active client waddr).1 = Except.ok true)
    (hp : (check_whitelist_address_presence client waddr to_addr).1 = Except.ok b) :
    (check_address client sender to_addr).1 = Except.ok b := by
  have hw : (check_whitelist_address client to_addr).1 = Except.ok b := by
    simp only [check_whitelist_address]
    rw [hr]
    simp only [ha, hp]
  simp only [check_address]
  rw [hc, hw]
  cases b <;> rfl

/-- C6 witness: certifier true, whitelist configured and active,
`whitelisted` decodes to false; the address check returns Ok(false). -/
theorem C6_active_whitelist_decides_witness :
    (check_address
      (mkClient (some 5) (some 7) (Except.ok trueWord) (Except.ok trueWord) (Except.ok falseWord))
      1 2).1 = Except.ok false :=
  C6_active_whitelist_decides
    (mkClient (some 5) (some 7) (Except.ok trueWord) (Except.ok trueWord) (Except.ok falseWord))
    1 2 7 false rfl rfl rfl rfl

/-- C7: for every zero-gas-price transaction, if the certifier registry
entry is absent, the top-level check errors with the string
"contract is not configured", never a defaulted boolean. -/
theorem C7_missing_certifier_entry_errors (client : Client) (tx : SignedTransaction)
    (hg : tx.gas_price = 0)
    (hr : client.registry_address SERVICE_TRANSACTION_CONTRACT_REGISTRY_NAME
      BlockId.Latest = none) :
    (check client tx).1 = Except.error "contract is not configured" := by
  simp only [check]
  rw [if_neg (fun hcontra => hcontra hg)]
  simp only [check_address, check_certified_address]
  rw [hr]

/-- C7 witness: a zero-gas-price Create transaction against a client with no
certifier registry entry errors with the configuration message. -/
theorem C7_missing_certifier_entry_errors_witness :
    (check
      (mkClient none (some 7) (Except.ok trueWord) (Except.ok trueWord) (Except.ok trueWord))
      (SignedTransaction.mk 1 0 Action.Create 0 0 21000 [])).1 =
      Except.error "contract is not configured" :=
  C7_missing_certifier_entry_errors
    (mkClient none (some 7) (Except.ok trueWord) (Except.ok trueWord) (Except.ok trueWord))
    (SignedTransaction.mk 1 0 Action.Create 0 0 21000 []) rfl rfl

/-- C8: for every zero-gas-price transaction, check delegates to
check_address on (sender, effective destination), where the effective
destination is the zero address for Create and the call target for Call. -/
theorem C8_effective_destination (client : Client) (tx : SignedTransaction)
    (h : tx.gas_price = 0) :
    (tx.action = Action.Create →
      check client tx = check_address client tx.sender Address.default) ∧
    ∀ a : Address, tx.action = Action.Call a →
      check client tx = check_address client tx.sender a := by
  constructor
  · intro hact
    simp only [check]
    rw [if_neg (fun hcontra => hcontra h), hact]
  · intro a hact
    simp only [check]
    rw [if_neg (fun hcontra => hcontra h), hact]

/-- C8 witness: for a Create transaction the destination is the zero
address, and for a Call transaction it is the call target. -/
theorem C8_effective_destination_witness :
    (check
      (mkClient none none (Except.ok trueWord) (Except.ok trueWord) (Except.ok trueWord))
      (SignedTransaction.mk 1 0 Action.Create 0 0 21000 []) =
     check_address
      (mkClient none none (Except.ok trueWord) (Except.ok trueWord) (Except.ok trueWord))
      1 Address.default) ∧
    (check
      (mkClient none none (Except.ok trueWord) (Except.ok trueWord) (Except.ok trueWord))
      (SignedTransaction.mk 1 0 (Action.Call 2) 0 0 21000 []) =
     check_address
      (mkClient none none (Except.ok trueWord) (Except.ok trueWord) (Except.ok trueWord))
      1 2) :=
  ⟨(C8_effective_destination
      (mkClient none none (Except.ok trueWord) (Except.ok trueWord) (Except.ok trueWord))
      (SignedTransaction.mk 1 0 Action.Create 0 0 21000 []) rfl).1 rfl,
   (C8_effective_destination
      (mkClient none none (Except.ok trueWord) (Except.ok trueWord) (Except.ok trueWord))
      (SignedTransaction.mk 1 0 (Action.Call 2) 0 0 21000 []) rfl).2 2 rfl⟩

/-- C9: within the whitelist check, if `activated()` successfully returns
false, the `whitelisted(address)` contract function is never invoked. -/
theorem C9_no_presence_call_when_inactive (client : Client) (to_addr waddr : Address)
    (hr : client.registry_address SERVICE_CERTIFIED_WHITESLIT_CONTRACT_REGISTRY_NAME
      BlockId.Latest = some waddr)
    (ha : (check_whitelist_active client waddr).1 = Except.ok false) :
    ∀ op ∈ (check_whitelist_address client to_addr).2, op.isPresenceCall = false := by
  intro op hop
  simp only [check_whitelist_address] at hop
  rw [hr] at hop
  simp only [ha, List.mem_cons] at hop
  rcases hop with h | h
  · subst h
    rfl
  · exact check_whitelist_active_ops_not_presence client waddr op h

/-- C9 witness: with the whitelist configured at address 7 and `activated()`
decoding to false, no query in the whitelist-check trace is a
`whitelisted(address)` call. -/
theorem C9_no_presence_call_when_inactive_witness :
    ChainOp.call 7 CallData.activated ∈ (check_whitelist_address
      (mkClient (some 5) (some 7) (Except.ok trueWord) (Except.ok falseWord) (Except.ok trueWord))
      2).2 ∧
    (ChainOp.call 7 CallData.activated).isPresenceCall = false :=
  ⟨by decide,
   C9_no_presence_call_when_inactive
    (mkClient (some 5) (some 7) (Except.ok trueWord) (Except.ok falseWord) (Except.ok trueWord))
    2 7 rfl rfl (ChainOp.call 7 CallData.activated) (by decide)⟩

/-- C10: the result of check, trace included, depends only on the sender,
the gas price and the action of the transaction (and the client): the other
fields (nonce, value, gas limit, data) never influence it. -/
theorem C10_depends_only_on_sender_price_action (client : Client)
    (tx₁ tx₂ : SignedTransaction)
    (hs : tx₁.sender = tx₂.sender)
    (hg : tx₁.gas_price = tx₂.gas_price)
    (ha : tx₁.action = tx₂.action) :
    check client tx₁ = check client tx₂ := by
  obtain ⟨s₁, g₁, a₁, n₁, v₁, ga₁, d₁⟩ := tx₁
  obtain ⟨s₂, g₂, a₂, n₂, v₂, ga₂, d₂⟩ := tx₂
  dsimp only at hs hg ha
  subst hs
  subst hg
  subst ha
  rfl

/-- C10 witness: two transactions agreeing on sender, gas price and action
but differing in nonce, value, gas limit and data evaluate identically. -/
theorem C10_depends_only_on_sender_price_action_witness :
    check
      (mkClient (some 5) (some 7) (Except.ok trueWord) (Except.ok trueWord) (Except.ok trueWord))
      (SignedTransaction.mk 1 0 (Action.Call 2) 0 0 21000 []) =
    check
      (mkClient (some 5) (some 7) (Except.ok trueWord) (Except.ok trueWord) (Except.ok trueWord))
      (SignedTransaction.mk 1 0 (Action.Call 2) 9 44 90000 [3, 1, 4]) :=
  C10_depends_only_on_sender_price_action
    (mkClient (some 5) (some 7) (Except.ok trueWord) (Except.ok trueWord) (Except.ok trueWord))
    (SignedTransaction.mk 1 0 (Action.Call 2) 0 0 21000 [])
    (SignedTransaction.mk 1 0 (Action.Call 2) 9 44 90000 [3, 1, 4])
    rfl rfl rfl

end ServiceTransactionChecker

end Parity
